import Mathlib

/-!
Shallow embedding of `src/core_processor/mediapipe_skeleton_detector/
mediapipe_skeleton_detector.py` (PyMotionCapture).

Coordinates are modelled as rationals; a NaN cell of the numpy arrays is
modelled as `none` (the landmark values produced by the detector are plain
finite floats, so the only NaN in the arrays is the missing-data sentinel
written at initialization).
-/

namespace PyMotionCapture

/-- One mediapipe landmark: normalized x, normalized y and a visibility
(confidence) scalar.  Hand and face landmarks carry a visibility field too
(the code just never reads it for them). -/
structure Landmark where
  x : ℚ
  y : ℚ
  visibility : ℚ
deriving DecidableEq, Repr, Inhabited

/-- One holistic detector result for one frame: each part is either absent
(`none`, mediapipe returns `None`) or the ordered landmark list of that part. -/
structure MediapipeResults where
  pose_landmarks : Option (List Landmark)
  right_hand_landmarks : Option (List Landmark)
  left_hand_landmarks : Option (List Landmark)
  face_landmarks : Option (List Landmark)
deriving DecidableEq, Repr, Inhabited

/-- A cell of a `[..., 2]` coordinate array: the X and the Y entry, each either
a number or the NaN sentinel (`none`). -/
abbrev Cell := Option ℚ × Option ℚ

/-- A freshly allocated coordinate row: `np.zeros(...); arr[:] = np.nan`. -/
def nanRow (n : ℕ) : List Cell := List.replicate n (none, none)

/-- A freshly allocated confidence row, all NaN. -/
def nanConfRow (n : ℕ) : List (Option ℚ) := List.replicate n none

/-- The slice assignment `arr[this_frame_number, :, 0] = lm.x * image_width`:
every point of the row gets the same X value. -/
def writeXSlice (image_width : ℚ) (lm : Landmark) (row : List Cell) : List Cell :=
  row.map (fun c => (some (lm.x * image_width), c.2))

/-- The slice assignment `arr[this_frame_number, :, 1] = lm.y * image_height`. -/
def writeYSlice (image_height : ℚ) (lm : Landmark) (row : List Cell) : List Cell :=
  row.map (fun c => (c.1, some (lm.y * image_height)))

/-- One iteration of the per-landmark loop body for a coordinate block:
the X slice write followed by the Y slice write. -/
def landmarkStep (image_width image_height : ℚ) (row : List Cell) (lm : Landmark) :
    List Cell :=
  writeYSlice image_height lm (writeXSlice image_width lm row)

/-- The `for this_landmark_data in ...landmark:` loop over one frame's landmark
list, acting on that frame's coordinate row. -/
def fillPartRow (image_width image_height : ℚ) (landmarks : List Landmark)
    (row : List Cell) : List Cell :=
  landmarks.foldl (landmarkStep image_width image_height) row

/-- The coordinate row a frame ends up with for one part: absent part leaves the
sentinel row untouched, a present part runs the landmark loop on it. -/
def partRowForFrame (n : ℕ) (image_width image_height : ℚ)
    (part : Option (List Landmark)) : List Cell :=
  match part with
  | none => nanRow n
  | some landmarks => fillPartRow image_width image_height landmarks (nanRow n)

/-- The slice assignment `confidence[this_frame_number, :] = lm.visibility`,
iterated over the body landmark loop (the confidence array is written in the
same loop as the body coordinates; it is a separate array, so its final row is
the fold of its own slice writes over the same landmark list). -/
def confRowForFrame (n : ℕ) (part : Option (List Landmark)) : List (Option ℚ) :=
  match part with
  | none => nanConfRow n
  | some landmarks =>
      landmarks.foldl (fun row lm => row.map (fun _ => some lm.visibility)) (nanConfRow n)

/-- Number of columns of a row whose X entry is NaN
(`sum(np.isnan(row))[0]` of the source's visibility check). -/
def nanCountX (row : List Cell) : ℕ := (row.filter (fun c => c.1.isNone)).length

/-- Number of columns of a row whose Y entry is NaN. -/
def nanCountY (row : List Cell) : ℕ := (row.filter (fun c => c.2.isNone)).length

/-- The check `all(sum(np.isnan(block[frame])) == 0)`: the per-column NaN
counts of the frame's `[points, 2]` block are all zero. -/
def allPointsVisible (row : List Cell) : Bool :=
  nanCountX row == 0 && nanCountY row == 0

/-- The per-part point counts, read off the tracked-point names dictionary and
the mediapipe face-mesh constant; the embedding is parametric in them. -/
structure PointCounts where
  nBody : ℕ
  nRightHand : ℕ
  nLeftHand : ℕ
  nFace : ℕ
deriving DecidableEq, Repr

/-- The dataclass `Mediapipe2dSingleCameraNpyArrays`: four coordinate arrays
`[frames, points, 2]` and the body confidence array `[frames, points]`,
each array a list of per-frame rows. -/
structure Mediapipe2dSingleCameraNpyArrays where
  body2d_frameNumber_trackedPointNumber_XY : List (List Cell)
  rightHand2d_frameNumber_trackedPointNumber_XY : List (List Cell)
  leftHand2d_frameNumber_trackedPointNumber_XY : List (List Cell)
  face2d_frameNumber_trackedPointNumber_XY : List (List Cell)
  body2d_frameNumber_trackedPointNumber_confidence : List (List (Option ℚ))
deriving DecidableEq, Repr

/-- The body of `_list_of_mediapipe_results_to_npy_arrays`: arrays are
allocated full of the NaN sentinel and row `f` of each array is overwritten by
that frame's landmark loop exactly when the part is present in frame `f`
(frames are written independently, so the mutation loop is a map over frames). -/
def list_of_mediapipe_results_to_npy_arrays (pc : PointCounts)
    (mediapipe_results_list : List MediapipeResults)
    (image_width image_height : ℚ) : Mediapipe2dSingleCameraNpyArrays :=
  { body2d_frameNumber_trackedPointNumber_XY :=
      mediapipe_results_list.map
        (fun r => partRowForFrame pc.nBody image_width image_height r.pose_landmarks)
    rightHand2d_frameNumber_trackedPointNumber_XY :=
      mediapipe_results_list.map
        (fun r => partRowForFrame pc.nRightHand image_width image_height r.right_hand_landmarks)
    leftHand2d_frameNumber_trackedPointNumber_XY :=
      mediapipe_results_list.map
        (fun r => partRowForFrame pc.nLeftHand image_width image_height r.left_hand_landmarks)
    face2d_frameNumber_trackedPointNumber_XY :=
      mediapipe_results_list.map
        (fun r => partRowForFrame pc.nFace image_width image_height r.face_landmarks)
    body2d_frameNumber_trackedPointNumber_confidence :=
      mediapipe_results_list.map
        (fun r => confRowForFrame pc.nBody r.pose_landmarks) }

/-- The per-frame list `all_body_tracked_points_visible_on_this_frame_bool_list`. -/
def all_body_visible_bool_list (a : Mediapipe2dSingleCameraNpyArrays) : List Bool :=
  a.body2d_frameNumber_trackedPointNumber_XY.map allPointsVisible

/-- The per-frame list `all_right_hand_points_visible_on_this_frame_bool_list`. -/
def all_right_hand_visible_bool_list (a : Mediapipe2dSingleCameraNpyArrays) : List Bool :=
  a.rightHand2d_frameNumber_trackedPointNumber_XY.map allPointsVisible

/-- The per-frame list `all_left_hand_points_visible_on_this_frame_bool_list`. -/
def all_left_hand_visible_bool_list (a : Mediapipe2dSingleCameraNpyArrays) : List Bool :=
  a.leftHand2d_frameNumber_trackedPointNumber_XY.map allPointsVisible

/-- The per-frame list `all_face_points_visible_on_this_frame_bool_list`. -/
def all_face_visible_bool_list (a : Mediapipe2dSingleCameraNpyArrays) : List Bool :=
  a.face2d_frameNumber_trackedPointNumber_XY.map allPointsVisible

/-- Frame-wise conjunction of four boolean lists
(`all([all_body_visible, all_right_hand_visible, ...])` per frame). -/
def zipAnd4 : List Bool → List Bool → List Bool → List Bool → List Bool
  | a :: as, b :: bs, c :: cs, d :: ds => (a && b && c && d) :: zipAnd4 as bs cs ds
  | _, _, _, _ => []

/-- The per-frame list `all_tracked_points_visible_on_this_frame_list`. -/
def all_tracked_points_visible_list (a : Mediapipe2dSingleCameraNpyArrays) : List Bool :=
  zipAnd4 (all_body_visible_bool_list a) (all_right_hand_visible_bool_list a)
    (all_left_hand_visible_bool_list a) (all_face_visible_bool_list a)

/-- Row-wise concatenation of the four part arrays
(`np.hstack` along the tracked-point axis). -/
def hstack4 : List (List Cell) → List (List Cell) → List (List Cell) →
    List (List Cell) → List (List Cell)
  | a :: as, b :: bs, c :: cs, d :: ds => (a ++ b ++ c ++ d) :: hstack4 as bs cs ds
  | _, _, _, _ => []

/-- The property `all_data2d_nFrames_nTrackedPts_XY`: hstack of body, right
hand, left hand, face, in that order. -/
def all_data2d_nFrames_nTrackedPts_XY (a : Mediapipe2dSingleCameraNpyArrays) :
    List (List Cell) :=
  hstack4 a.body2d_frameNumber_trackedPointNumber_XY
    a.rightHand2d_frameNumber_trackedPointNumber_XY
    a.leftHand2d_frameNumber_trackedPointNumber_XY
    a.face2d_frameNumber_trackedPointNumber_XY

/-! Session pipeline (`process_session_folder` and its collaborators). -/

/-- The errors a session run can end in.  `firstFrameDecodeError` is the bare
`raise Exception` of lines 85-88, `renderError` a failure escaping the
unprotected `save_annotated_videos` call, `emptyListIndexError` the
`IndexError` of `all_cameras_data2d_list[0]` on an empty list,
`spatialDimensionError` the `raise Exception` of the `== 2` check, and
`broadcastError` the numpy `ValueError` of a slice assignment whose source
array cannot be broadcast to the slice's shape. -/
inductive PipelineError where
  | firstFrameDecodeError
  | renderError
  | emptyListIndexError
  | spatialDimensionError
  | broadcastError
deriving DecidableEq, Repr

/-- One synchronized video as the pipeline sees it: the capture object's
reported width and height, the file stem, and the decoder's read sequence
(`none` models a read whose success flag is false or whose image is `None`;
reading past the end of the list is end-of-stream, also a failed read). -/
structure VideoInput (Image : Type) where
  width : ℚ
  height : ℚ
  stem : String
  reads : List (Option Image)

/-- Images returned by the `while success and image is not None` loop after a
successful first read: the longest prefix of successful reads. -/
def takeWhileSome {Image : Type} : List (Option Image) → List Image
  | [] => []
  | none :: _ => []
  | some img :: rest => img :: takeWhileSome rest

/-- The decode loop of `process_session_folder` for one video: the first read
must succeed (`if not success or image is None: raise Exception`), after which
frames are read until the first failure, which just ends the loop. -/
def readVideoFrames {Image : Type} (reads : List (Option Image)) :
    Except PipelineError (List Image) :=
  match reads with
  | [] => .error .firstFrameDecodeError
  | none :: _ => .error .firstFrameDecodeError
  | some img :: rest => .ok (img :: takeWhileSome rest)

/-- Name of the annotated-video artifact built in `save_annotated_videos`:
`video_file_name + "_mediapipe.mp4"`, where `video_file_name` is the stem of
the input video (discovered by the glob `*.mp4`). -/
def annotated_video_name (video_file_name : String) : String :=
  video_file_name ++ "_mediapipe.mp4"

/-- One frame's row of a camera's `all_data2d` array: the four part rows of the
frame concatenated in the hstack order body, right hand, left hand, face. -/
def cameraRowBlock (pc : PointCounts) (image_width image_height : ℚ)
    (r : MediapipeResults) : List Cell :=
  partRowForFrame pc.nBody image_width image_height r.pose_landmarks
  ++ partRowForFrame pc.nRightHand image_width image_height r.right_hand_landmarks
  ++ partRowForFrame pc.nLeftHand image_width image_height r.left_hand_landmarks
  ++ partRowForFrame pc.nFace image_width image_height r.face_landmarks

/-- The frames the decode loop yields on a stream whose first read succeeds
(empty otherwise): the first image and the successful prefix after it. -/
def decodedImages {Image : Type} (reads : List (Option Image)) : List Image :=
  match reads with
  | some img :: rest => img :: takeWhileSome rest
  | _ => []

/-- Per-video body of the session loop: run the decode loop, run the detector
on each decoded frame in order, call `save_annotated_videos` (an external
effect with no exception handler around it: `renderOk v = false` models the
renderer or encoder raising, which propagates), then convert the per-frame
results to the per-camera arrays. -/
def processVideo {Image : Type} (detect : Image → MediapipeResults)
    (renderOk : VideoInput Image → Bool) (pc : PointCounts)
    (save_annotated_videos : Bool) (v : VideoInput Image) :
    Except PipelineError Mediapipe2dSingleCameraNpyArrays := do
  let images ← readVideoFrames v.reads
  let results := images.map detect
  if save_annotated_videos && !(renderOk v) then
    throw .renderError
  return list_of_mediapipe_results_to_npy_arrays pc results v.width v.height

/-- Sequential fallible iteration, the `for` loops of the pipeline: the first
failing step aborts the whole loop with its error. -/
def exceptMapM {α β ε : Type} (ff : α → Except ε β) : List α → Except ε (List β)
  | [] => .ok []
  | a :: t => do
      let b ← ff a
      let bs ← exceptMapM ff t
      return b :: bs

/-- numpy's broadcast rule for one axis: the source extent must equal the
target extent or be 1. -/
def broadcastDim (n target : ℕ) : Bool := n == target || n == 1

/-- Shape `(len, len of first row)` of a nested-list array (numpy arrays are
rectangular, so the first row's length is the column count). -/
def shapeOf (a : List (List Cell)) : ℕ × ℕ := (a.length, (a.headD []).length)

/-- The slice assignment `data2d[cam, :, :, :] = src` into a `[F, P, 2]` slot:
numpy broadcasts `src` when an axis extent is 1 and raises a `ValueError`
otherwise; the spatial axis is structurally 2 on both sides here. -/
def broadcastAssign (F P : ℕ) (src : List (List Cell)) :
    Except PipelineError (List (List Cell)) :=
  let F' := (shapeOf src).1
  let P' := (shapeOf src).2
  if broadcastDim F' F && broadcastDim P' P then
    .ok (((if F' == 1 then List.replicate F (src.headD []) else src)).map
      (fun row => if P' == 1 then List.replicate P (row.headD (none, none)) else row))
  else
    .error .broadcastError

/-- Lines 112-131 on the per-camera data: read camera 0's shape (an
`IndexError` on an empty camera list), allocate
`np.empty((C, F0, P0, 2))` and slice-assign each camera's array into it.  The
spatial axis of the embedded arrays is 2 by construction, so the `== 2` check
passes.  The result is the stacked array as a list of camera blocks. -/
def stackCamerasData (all_cameras_data2d_list : List (List (List Cell))) :
    Except PipelineError (List (List (List Cell))) :=
  match all_cameras_data2d_list with
  | [] => .error .emptyListIndexError
  | a0 :: _ =>
      let F := (shapeOf a0).1
      let P := (shapeOf a0).2
      exceptMapM (broadcastAssign F P) all_cameras_data2d_list

/-- The whole of `process_session_folder`: iterate the discovered videos in
order, process each one, take each camera's
`all_data2d_nFrames_nTrackedPts_XY`, and stack them.  The returned array is
also what `_save_mediapipe2d_data_to_npy` persists. -/
def process_session_folder {Image : Type} (detect : Image → MediapipeResults)
    (renderOk : VideoInput Image → Bool) (pc : PointCounts)
    (save_annotated_videos : Bool) (videos : List (VideoInput Image)) :
    Except PipelineError (List (List (List Cell))) := do
  let perCamera ← exceptMapM (processVideo detect renderOk pc save_annotated_videos) videos
  let all_cameras_data2d_list := perCamera.map all_data2d_nFrames_nTrackedPts_XY
  stackCamerasData all_cameras_data2d_list

/-! Shape-level model of the stacking phase (lines 112-131), used to settle the
assembly-precondition claim on numpy shapes directly. -/

/-- The numpy shape of one camera's `all_data2d` array:
`(frames, points, spatial dims)`. -/
structure NpyShape3 where
  frames : ℕ
  points : ℕ
  dims : ℕ
deriving DecidableEq, Repr

/-- Lines 112-131 at shape level: camera 0's shape is read (`IndexError` when
the list is empty), only `dims == 2` of camera 0 is checked (a bare
`raise Exception`), and each camera is slice-assigned into the
`(C, F0, P0, D0)` output, numpy broadcasting each axis whose source extent is
1 and raising a `ValueError` otherwise.  On success the output shape is
returned. -/
def stackShapes (shapes : List NpyShape3) :
    Except PipelineError (ℕ × ℕ × ℕ × ℕ) :=
  match shapes with
  | [] => .error .emptyListIndexError
  | s0 :: _ =>
      if s0.dims == 2 then
        if shapes.all (fun s => broadcastDim s.frames s0.frames
            && broadcastDim s.points s0.points && broadcastDim s.dims s0.dims) then
          .ok (shapes.length, s0.frames, s0.points, s0.dims)
        else
          .error .broadcastError
      else
        .error .spatialDimensionError

/-- Last element of a landmark list (the value the slice-overwrite loop leaves
behind), with a default for the empty list. -/
def lastLm : List Landmark → Landmark
  | [] => ⟨0, 0, 0⟩
  | [a] => a
  | _ :: b :: t => lastLm (b :: t)

/-! Concrete sample data for witnesses. -/

def lmA : Landmark := ⟨1, 2, 9⟩

def lmB : Landmark := ⟨3, 4, 8⟩

def sampleResults : MediapipeResults :=
  ⟨some [lmA, lmB], some [lmA], some [lmB], some [lmA, lmB]⟩

def sampleAbsent : MediapipeResults := ⟨none, none, none, none⟩

def samplePC : PointCounts := ⟨2, 1, 1, 3⟩

/-! Helper lemmas. -/

theorem map_const_eq_replicate {α β : Type} (l : List α) (b : β) :
    l.map (fun _ => b) = List.replicate l.length b := by
  induction l with
  | nil => rfl
  | cons a t ih => simp [List.replicate, ih]

theorem foldl_slicewrite {β : Type} (g : Landmark → β)
    (s : List β → Landmark → List β)
    (hs : ∀ r a, s r a = List.replicate r.length (g a)) :
    ∀ (lms : List Landmark) (row : List β), lms ≠ [] →
      lms.foldl s row = List.replicate row.length (g (lastLm lms))
  | [], _, hne => absurd rfl hne
  | [a], row, _ => by simp [List.foldl, hs, lastLm]
  | a :: b :: t, row, _ => by
      have ih := foldl_slicewrite g s hs (b :: t) (s row a) (by simp)
      simp only [List.foldl_cons] at ih ⊢
      rw [ih, hs, List.length_replicate]
      rfl

theorem landmarkStep_eq (w h : ℚ) (row : List Cell) (a : Landmark) :
    landmarkStep w h row a
      = List.replicate row.length (some (a.x * w), some (a.y * h)) := by
  simp only [landmarkStep, writeXSlice, writeYSlice, List.map_map]
  exact map_const_eq_replicate row (some (a.x * w), some (a.y * h))

theorem fillPartRow_const (w h : ℚ) (lms : List Landmark) (hne : lms ≠ [])
    (row : List Cell) :
    fillPartRow w h lms row
      = List.replicate row.length (some ((lastLm lms).x * w), some ((lastLm lms).y * h)) :=
  foldl_slicewrite (fun a => (some (a.x * w), some (a.y * h)))
    (landmarkStep w h) (landmarkStep_eq w h) lms row hne

theorem confFold_const (lms : List Landmark) (hne : lms ≠ []) (row : List (Option ℚ)) :
    lms.foldl (fun r lm => r.map (fun _ => some lm.visibility)) row
      = List.replicate row.length (some (lastLm lms).visibility) :=
  foldl_slicewrite (fun a => some a.visibility)
    (fun r lm => r.map (fun _ => some lm.visibility))
    (fun r a => map_const_eq_replicate r (some a.visibility)) lms row hne

theorem fillPartRow_length (w h : ℚ) (lms : List Landmark) (row : List Cell) :
    (fillPartRow w h lms row).length = row.length := by
  induction lms generalizing row with
  | nil => rfl
  | cons a t ih =>
      simp only [fillPartRow, List.foldl_cons] at ih ⊢
      rw [ih, landmarkStep_eq, List.length_replicate]

theorem partRowForFrame_length (n : ℕ) (w h : ℚ) (p : Option (List Landmark)) :
    (partRowForFrame n w h p).length = n := by
  cases p with
  | none => simp [partRowForFrame, nanRow]
  | some lms => simp [partRowForFrame, fillPartRow_length, nanRow]

theorem map_getD_of_lt {α β : Type} (g : α → β) (l : List α) (f : ℕ)
    (hf : f < l.length) (d : β) :
    (l.map g).getD f d = g (l.get ⟨f, hf⟩) := by
  simp [List.getD_eq_getElem?_getD, List.getElem?_eq_getElem hf]

theorem allPointsVisible_iff (row : List Cell) :
    allPointsVisible row = true ↔ ∀ c ∈ row, c.1 ≠ none ∧ c.2 ≠ none := by
  simp only [allPointsVisible, nanCountX, nanCountY, Bool.and_eq_true, beq_iff_eq,
    List.length_eq_zero, List.filter_eq_nil_iff, Option.isNone_iff_eq_none]
  constructor
  · rintro ⟨h1, h2⟩ c hc
    exact ⟨by simpa using h1 c hc, by simpa using h2 c hc⟩
  · intro h
    exact ⟨fun c hc => by simpa using (h c hc).1, fun c hc => by simpa using (h c hc).2⟩

theorem zipAnd4_getD :
    ∀ (as bs cs ds : List Bool), as.length = bs.length → bs.length = cs.length →
      cs.length = ds.length → ∀ f : ℕ,
      (zipAnd4 as bs cs ds).getD f false
        = (as.getD f false && bs.getD f false && cs.getD f false && ds.getD f false)
  | [], [], [], [], _, _, _, _ => by simp [zipAnd4]
  | [], bs, cs, ds, hab, _, _, _ => by
      cases bs with
      | nil => simp [zipAnd4]
      | cons b t => simp at hab
  | a :: as, bs, cs, ds, hab, hbc, hcd, f => by
      cases bs with
      | nil => simp at hab
      | cons b bs =>
        cases cs with
        | nil => simp at hbc
        | cons c cs =>
          cases ds with
          | nil => simp at hcd
          | cons d ds =>
            cases f with
            | zero => simp [zipAnd4]
            | succ f =>
                simp only [zipAnd4, List.getD_cons_succ]
                exact zipAnd4_getD as bs cs ds (by simpa using hab)
                  (by simpa using hbc) (by simpa using hcd) f

/-- C1: in every frame where a part is present with a non-empty landmark list,
every tracked point of that part's coordinate block for that frame receives
the same value, the last landmark's `(x * image_width, y * image_height)`, and
every entry of the body confidence row receives the last body landmark's
visibility scalar. -/
theorem C1_present_part_broadcasts_last_landmark (pc : PointCounts)
    (results : List MediapipeResults) (w h : ℚ) (f : ℕ)
    (hf : f < results.length) :
    (∀ lms, (results.get ⟨f, hf⟩).pose_landmarks = some lms → lms ≠ [] →
      (list_of_mediapipe_results_to_npy_arrays pc results w h).body2d_frameNumber_trackedPointNumber_XY.getD f []
        = List.replicate pc.nBody (some ((lastLm lms).x * w), some ((lastLm lms).y * h))
      ∧ (list_of_mediapipe_results_to_npy_arrays pc results w h).body2d_frameNumber_trackedPointNumber_confidence.getD f []
        = List.replicate pc.nBody (some (lastLm lms).visibility))
    ∧ (∀ lms, (results.get ⟨f, hf⟩).right_hand_landmarks = some lms → lms ≠ [] →
      (list_of_mediapipe_results_to_npy_arrays pc results w h).rightHand2d_frameNumber_trackedPointNumber_XY.getD f []
        = List.replicate pc.nRightHand (some ((lastLm lms).x * w), some ((lastLm lms).y * h)))
    ∧ (∀ lms, (results.get ⟨f, hf⟩).left_hand_landmarks = some lms → lms ≠ [] →
      (list_of_mediapipe_results_to_npy_arrays pc results w h).leftHand2d_frameNumber_trackedPointNumber_XY.getD f []
        = List.replicate pc.nLeftHand (some ((lastLm lms).x * w), some ((lastLm lms).y * h)))
    ∧ (∀ lms, (results.get ⟨f, hf⟩).face_landmarks = some lms → lms ≠ [] →
      (list_of_mediapipe_results_to_npy_arrays pc results w h).face2d_frameNumber_trackedPointNumber_XY.getD f []
        = List.replicate pc.nFace (some ((lastLm lms).x * w), some ((lastLm lms).y * h))) := by
  refine ⟨fun lms hsome hne => ⟨?_, ?_⟩, fun lms hsome hne => ?_,
    fun lms hsome hne => ?_, fun lms hsome hne => ?_⟩
  · simp only [list_of_mediapipe_results_to_npy_arrays]
    rw [map_getD_of_lt _ results f hf, hsome]
    simp only [partRowForFrame]
    rw [fillPartRow_const _ _ _ hne]
    simp [nanRow]
  · simp only [list_of_mediapipe_results_to_npy_arrays]
    rw [map_getD_of_lt _ results f hf, hsome]
    simp only [confRowForFrame]
    rw [confFold_const _ hne]
    simp [nanConfRow]
  · simp only [list_of_mediapipe_results_to_npy_arrays]
    rw [map_getD_of_lt _ results f hf, hsome]
    simp only [partRowForFrame]
    rw [fillPartRow_const _ _ _ hne]
    simp [nanRow]
  · simp only [list_of_mediapipe_results_to_npy_arrays]
    rw [map_getD_of_lt _ results f hf, hsome]
    simp only [partRowForFrame]
    rw [fillPartRow_const _ _ _ hne]
    simp [nanRow]
  · simp only [list_of_mediapipe_results_to_npy_arrays]
    rw [map_getD_of_lt _ results f hf, hsome]
    simp only [partRowForFrame]
    rw [fillPartRow_const _ _ _ hne]
    simp [nanRow]

/-- Witness for C1 at a concrete frame: body block of two landmarks
`(1,2)` and `(3,4)` at width 10, height 100 collapses to the last landmark's
`(30, 400)` at both points, and both confidence entries get its visibility 8. -/
theorem C1_witness :
    (list_of_mediapipe_results_to_npy_arrays samplePC [sampleResults] 10 100).body2d_frameNumber_trackedPointNumber_XY.getD 0 []
      = List.replicate 2 ((some 30 : Option ℚ), (some 400 : Option ℚ))
    ∧ (list_of_mediapipe_results_to_npy_arrays samplePC [sampleResults] 10 100).body2d_frameNumber_trackedPointNumber_confidence.getD 0 []
      = List.replicate 2 (some (8 : ℚ)) := by
  have h := C1_present_part_broadcasts_last_landmark samplePC [sampleResults] 10 100 0
    (by decide)
  have hb := h.1 [lmA, lmB] rfl (by decide)
  refine ⟨hb.1.trans ?_, hb.2.trans ?_⟩ <;> norm_num [samplePC, lastLm, lmB]

/-- C3: in every frame where a part is absent from the detection result, every
cell of that part's coordinate block for that frame (and, for the body, every
cell of that frame's confidence row) is the NaN sentinel; the conversion is a
total function and raises nothing for the absence. -/
theorem C3_absent_part_leaves_sentinel (pc : PointCounts)
    (results : List MediapipeResults) (w h : ℚ) (f : ℕ)
    (hf : f < results.length) :
    ((results.get ⟨f, hf⟩).pose_landmarks = none →
      (list_of_mediapipe_results_to_npy_arrays pc results w h).body2d_frameNumber_trackedPointNumber_XY.getD f []
        = nanRow pc.nBody
      ∧ (list_of_mediapipe_results_to_npy_arrays pc results w h).body2d_frameNumber_trackedPointNumber_confidence.getD f []
        = nanConfRow pc.nBody)
    ∧ ((results.get ⟨f, hf⟩).right_hand_landmarks = none →
      (list_of_mediapipe_results_to_npy_arrays pc results w h).rightHand2d_frameNumber_trackedPointNumber_XY.getD f []
        = nanRow pc.nRightHand)
    ∧ ((results.get ⟨f, hf⟩).left_hand_landmarks = none →
      (list_of_mediapipe_results_to_npy_arrays pc results w h).leftHand2d_frameNumber_trackedPointNumber_XY.getD f []
        = nanRow pc.nLeftHand)
    ∧ ((results.get ⟨f, hf⟩).face_landmarks = none →
      (list_of_mediapipe_results_to_npy_arrays pc results w h).face2d_frameNumber_trackedPointNumber_XY.getD f []
        = nanRow pc.nFace) := by
  refine ⟨fun hnone => ⟨?_, ?_⟩, fun hnone => ?_, fun hnone => ?_, fun hnone => ?_⟩ <;>
    · simp only [list_of_mediapipe_results_to_npy_arrays]
      rw [map_getD_of_lt _ results f hf, hnone]
      rfl

/-- Witness for C3 at a concrete frame with every part absent: the body block
row and the confidence row (and, per the theorem, the other blocks) are all
sentinel. -/
theorem C3_witness :
    (list_of_mediapipe_results_to_npy_arrays samplePC [sampleAbsent] 10 100).body2d_frameNumber_trackedPointNumber_XY.getD 0 []
      = nanRow 2
    ∧ (list_of_mediapipe_results_to_npy_arrays samplePC [sampleAbsent] 10 100).body2d_frameNumber_trackedPointNumber_confidence.getD 0 []
      = nanConfRow 2 := by
  have h := C3_absent_part_leaves_sentinel samplePC [sampleAbsent] 10 100 0 (by decide)
  have hb := h.1 rfl
  exact ⟨hb.1.trans (by decide), hb.2.trans (by decide)⟩

/-- C4: for every frame, a part's visibility flag is true iff no cell of that
part's `[points, 2]` block for the frame is the NaN sentinel, and the overall
per-frame flag is the conjunction of the four per-part flags. -/
theorem C4_visibility_flags (pc : PointCounts) (results : List MediapipeResults)
    (w h : ℚ) (f : ℕ) (hf : f < results.length) :
    ((all_body_visible_bool_list (list_of_mediapipe_results_to_npy_arrays pc results w h)).getD f false = true
      ↔ ∀ c ∈ (list_of_mediapipe_results_to_npy_arrays pc results w h).body2d_frameNumber_trackedPointNumber_XY.getD f [],
          c.1 ≠ none ∧ c.2 ≠ none)
    ∧ ((all_right_hand_visible_bool_list (list_of_mediapipe_results_to_npy_arrays pc results w h)).getD f false = true
      ↔ ∀ c ∈ (list_of_mediapipe_results_to_npy_arrays pc results w h).rightHand2d_frameNumber_trackedPointNumber_XY.getD f [],
          c.1 ≠ none ∧ c.2 ≠ none)
    ∧ ((all_left_hand_visible_bool_list (list_of_mediapipe_results_to_npy_arrays pc results w h)).getD f false = true
      ↔ ∀ c ∈ (list_of_mediapipe_results_to_npy_arrays pc results w h).leftHand2d_frameNumber_trackedPointNumber_XY.getD f [],
          c.1 ≠ none ∧ c.2 ≠ none)
    ∧ ((all_face_visible_bool_list (list_of_mediapipe_results_to_npy_arrays pc results w h)).getD f false = true
      ↔ ∀ c ∈ (list_of_mediapipe_results_to_npy_arrays pc results w h).face2d_frameNumber_trackedPointNumber_XY.getD f [],
          c.1 ≠ none ∧ c.2 ≠ none)
    ∧ (all_tracked_points_visible_list (list_of_mediapipe_results_to_npy_arrays pc results w h)).getD f false
        = ((all_body_visible_bool_list (list_of_mediapipe_results_to_npy_arrays pc results w h)).getD f false
            && (all_right_hand_visible_bool_list (list_of_mediapipe_results_to_npy_arrays pc results w h)).getD f false
            && (all_left_hand_visible_bool_list (list_of_mediapipe_results_to_npy_arrays pc results w h)).getD f false
            && (all_face_visible_bool_list (list_of_mediapipe_results_to_npy_arrays pc results w h)).getD f false) := by
  refine ⟨?_, ?_, ?_, ?_, ?_⟩
  · simp only [all_body_visible_bool_list, list_of_mediapipe_results_to_npy_arrays,
      List.map_map]
    rw [map_getD_of_lt _ results f hf, map_getD_of_lt _ results f hf]
    exact allPointsVisible_iff _
  · simp only [all_right_hand_visible_bool_list, list_of_mediapipe_results_to_npy_arrays,
      List.map_map]
    rw [map_getD_of_lt _ results f hf, map_getD_of_lt _ results f hf]
    exact allPointsVisible_iff _
  · simp only [all_left_hand_visible_bool_list, list_of_mediapipe_results_to_npy_arrays,
      List.map_map]
    rw [map_getD_of_lt _ results f hf, map_getD_of_lt _ results f hf]
    exact allPointsVisible_iff _
  · simp only [all_face_visible_bool_list, list_of_mediapipe_results_to_npy_arrays,
      List.map_map]
    rw [map_getD_of_lt _ results f hf, map_getD_of_lt _ results f hf]
    exact allPointsVisible_iff _
  · simp only [all_tracked_points_visible_list]
    exact zipAnd4_getD _ _ _ _
      (by simp [all_body_visible_bool_list, all_right_hand_visible_bool_list,
        list_of_mediapipe_results_to_npy_arrays])
      (by simp [all_right_hand_visible_bool_list, all_left_hand_visible_bool_list,
        list_of_mediapipe_results_to_npy_arrays])
      (by simp [all_left_hand_visible_bool_list, all_face_visible_bool_list,
        list_of_mediapipe_results_to_npy_arrays])
      f

/-- Witness for C4 at a concrete frame: the overall visibility flag is the
conjunction of the four per-part flags. -/
theorem C4_witness :
    (all_tracked_points_visible_list (list_of_mediapipe_results_to_npy_arrays samplePC [sampleResults] 10 100)).getD 0 false
      = ((all_body_visible_bool_list (list_of_mediapipe_results_to_npy_arrays samplePC [sampleResults] 10 100)).getD 0 false
          && (all_right_hand_visible_bool_list (list_of_mediapipe_results_to_npy_arrays samplePC [sampleResults] 10 100)).getD 0 false
          && (all_left_hand_visible_bool_list (list_of_mediapipe_results_to_npy_arrays samplePC [sampleResults] 10 100)).getD 0 false
          && (all_face_visible_bool_list (list_of_mediapipe_results_to_npy_arrays samplePC [sampleResults] 10 100)).getD 0 false) :=
  (C4_visibility_flags samplePC [sampleResults] 10 100 0 (by decide)).2.2.2.2

/-! Lemmas about the session loop. -/

theorem exceptMapM_ok {α β ε : Type} (g : α → β) (ff : α → Except ε β) :
    ∀ l : List α, (∀ x ∈ l, ff x = .ok (g x)) → exceptMapM ff l = .ok (l.map g)
  | [], _ => rfl
  | a :: t, h => by
      have ht := exceptMapM_ok g ff t (fun x hx => h x (List.mem_cons_of_mem a hx))
      simp only [exceptMapM, h a (List.mem_cons_self a t), ht]
      rfl

theorem exceptMapM_error_of_mem {α β ε : Type} (ff : α → Except ε β) :
    ∀ (l : List α) (x : α), x ∈ l → (∃ e, ff x = .error e) →
      ∃ e, exceptMapM ff l = .error e
  | [], x, hx, _ => absurd hx (List.not_mem_nil x)
  | a :: t, x, hx, ⟨e, he⟩ => by
      rcases List.mem_cons.mp hx with rfl | hmem
      · refine ⟨e, ?_⟩
        simp only [exceptMapM, he]
        rfl
      · cases hfa : ff a with
        | error e' => exact ⟨e', by simp only [exceptMapM, hfa]; rfl⟩
        | ok b =>
            obtain ⟨e', he'⟩ := exceptMapM_error_of_mem ff t x hmem ⟨e, he⟩
            exact ⟨e', by simp only [exceptMapM, hfa, he']; rfl⟩

theorem map_eq_self_of {α : Type} (l : List α) (ff : α → α)
    (h : ∀ x ∈ l, ff x = x) : l.map ff = l := by
  induction l with
  | nil => rfl
  | cons a t ih =>
      simp [h a (List.mem_cons_self a t), ih (fun x hx => h x (List.mem_cons_of_mem a hx))]

theorem broadcastDim_eq_true (a b : ℕ) : broadcastDim a b = true ↔ a = b ∨ a = 1 := by
  simp [broadcastDim]

/-- C5: if a video's first frame cannot be decoded, the per-video processing
raises at once (`raise Exception`, no retry) and the whole session run ends in
an error: no partial-session continuation. -/
theorem C5_first_frame_decode_failure_aborts {Image : Type}
    (detect : Image → MediapipeResults) (renderOk : VideoInput Image → Bool)
    (pc : PointCounts) (save : Bool) (videos : List (VideoInput Image))
    (v : VideoInput Image) (hv : v ∈ videos)
    (hfail : v.reads.headD none = none) :
    processVideo detect renderOk pc save v = .error .firstFrameDecodeError
    ∧ ∃ e, process_session_folder detect renderOk pc save videos = .error e := by
  have hread : readVideoFrames v.reads
      = (.error .firstFrameDecodeError : Except PipelineError (List Image)) := by
    cases hr : v.reads with
    | nil => rfl
    | cons o t =>
        cases o with
        | none => rfl
        | some img => rw [hr] at hfail; simp at hfail
  have hpv : processVideo detect renderOk pc save v = .error .firstFrameDecodeError := by
    simp only [processVideo, hread]
    rfl
  refine ⟨hpv, ?_⟩
  obtain ⟨e, he⟩ := exceptMapM_error_of_mem _ videos v hv ⟨_, hpv⟩
  exact ⟨e, by simp only [process_session_folder, he]; rfl⟩

/-- Witness for C5: a one-video session whose decoder fails on the first read
aborts with the decode error. -/
theorem C5_witness :
    @processVideo Unit (fun _ => sampleAbsent) (fun _ => true) samplePC true
        ⟨1, 1, "cam0", []⟩ = .error .firstFrameDecodeError
    ∧ ∃ e, @process_session_folder Unit (fun _ => sampleAbsent)
        (fun _ => true) samplePC true [⟨1, 1, "cam0", []⟩] = .error e :=
  C5_first_frame_decode_failure_aborts _ _ _ _ _ _ (List.mem_singleton.mpr rfl) rfl

/-- C9: with no video files discovered, `process_session_folder` does not
return an empty stacked array: it fails with the index error of
`all_cameras_data2d_list[0]`, before the dimensionality check and before
persistence. -/
theorem C9_empty_session_fails_with_index_error {Image : Type}
    (detect : Image → MediapipeResults) (renderOk : VideoInput Image → Bool)
    (pc : PointCounts) (save : Bool) :
    process_session_folder detect renderOk pc save ([] : List (VideoInput Image))
      = .error .emptyListIndexError := rfl

/-- C10: a decode failure after the first frame ends the read loop exactly like
end-of-stream: nothing is raised, the video is processed with only the frames
decoded so far, and the per-video step returns normally so the session loop
moves on to the next video. -/
theorem C10_midstream_decode_failure_is_eos {Image : Type}
    (detect : Image → MediapipeResults) (renderOk : VideoInput Image → Bool)
    (pc : PointCounts) (save : Bool) (v : VideoInput Image)
    (img : Image) (rest : List (Option Image))
    (hreads : v.reads = some img :: rest)
    (hrender : (save && !(renderOk v)) = false) :
    readVideoFrames v.reads = .ok (img :: takeWhileSome rest)
    ∧ processVideo detect renderOk pc save v
        = .ok (list_of_mediapipe_results_to_npy_arrays pc
            ((img :: takeWhileSome rest).map detect) v.width v.height)
    ∧ (list_of_mediapipe_results_to_npy_arrays pc
          ((img :: takeWhileSome rest).map detect) v.width
          v.height).body2d_frameNumber_trackedPointNumber_XY.length
        = (img :: takeWhileSome rest).length := by
  have h1 : readVideoFrames v.reads
      = (.ok (img :: takeWhileSome rest) : Except PipelineError (List Image)) := by
    rw [hreads]
    rfl
  refine ⟨h1, ?_, ?_⟩
  · simp only [processVideo, h1, hrender]
    rfl
  · simp [list_of_mediapipe_results_to_npy_arrays]

/-- Witness for C10: a three-read stream `[ok, fail, ok]` yields a video with a
single processed frame and no error. -/
theorem C10_witness :
    @readVideoFrames Unit [some (), none, some ()] = .ok [()]
    ∧ @processVideo Unit (fun _ => sampleAbsent) (fun _ => true) samplePC true
        ⟨1, 1, "cam0", [some (), none, some ()]⟩
        = .ok (list_of_mediapipe_results_to_npy_arrays samplePC
            ([()].map (fun _ => sampleAbsent)) 1 1)
    ∧ (list_of_mediapipe_results_to_npy_arrays samplePC
          ([()].map (fun _ => sampleAbsent)) 1
          1).body2d_frameNumber_trackedPointNumber_XY.length = 1 :=
  @C10_midstream_decode_failure_is_eos Unit (fun _ => sampleAbsent)
    (fun _ => true) samplePC true ⟨1, 1, "cam0", [some (), none, some ()]⟩ ()
    [none, some ()] rfl rfl

/-- C8: the annotated-copy artifact is named by appending `_mediapipe` and the
container extension (`.mp4`, the suffix the discovery glob selects) to the
original file stem. -/
theorem C8_annotated_video_naming (stem : String) :
    annotated_video_name stem = stem ++ "_mediapipe" ++ ".mp4" := by
  rw [String.append_assoc]
  rfl

/-- C6 as stated is false at this input: the renderer fails on a one-video
session and the run ends in the render error — no per-camera arrays and no
stacked array are produced or persisted. -/
theorem C6_counterexample :
    @process_session_folder Unit (fun _ => sampleAbsent) (fun _ => false)
      samplePC true [⟨1, 1, "cam0", [some ()]⟩] = .error .renderError := rfl

/-- C6 amended: a failure while rendering or saving the annotated copy
propagates out of the unprotected `save_annotated_videos` call, so the failing
video's numeric arrays are never built and the session aborts with no stacked
array. -/
theorem C6_amended_render_failure_aborts {Image : Type}
    (detect : Image → MediapipeResults) (renderOk : VideoInput Image → Bool)
    (pc : PointCounts) (videos : List (VideoInput Image)) (v : VideoInput Image)
    (hv : v ∈ videos) (hrender : renderOk v = false)
    (img : Image) (rest : List (Option Image))
    (hreads : v.reads = some img :: rest) :
    processVideo detect renderOk pc true v = .error .renderError
    ∧ ∃ e, process_session_folder detect renderOk pc true videos = .error e := by
  have h1 : readVideoFrames v.reads
      = (.ok (img :: takeWhileSome rest) : Except PipelineError (List Image)) := by
    rw [hreads]
    rfl
  have hpv : processVideo detect renderOk pc true v = .error .renderError := by
    simp only [processVideo, h1, hrender]
    rfl
  refine ⟨hpv, ?_⟩
  obtain ⟨e, he⟩ := exceptMapM_error_of_mem _ videos v hv ⟨_, hpv⟩
  exact ⟨e, by simp only [process_session_folder, he]; rfl⟩

/-- Witness for the amended C6: one decodable video plus a failing renderer
ends the session in the render error. -/
theorem C6_amended_witness :
    @processVideo Unit (fun _ => sampleAbsent) (fun _ => false) samplePC true
        ⟨1, 1, "cam0", [some ()]⟩ = .error .renderError
    ∧ ∃ e, @process_session_folder Unit (fun _ => sampleAbsent)
        (fun _ => false) samplePC true [⟨1, 1, "cam0", [some ()]⟩] = .error e :=
  C6_amended_render_failure_aborts _ _ _ _ _ (List.mem_singleton.mpr rfl) rfl () [] rfl

/-- C2 as stated is false at this input: cameras disagreeing on frame count
(2 vs 1) raise nothing — the 1-frame camera is silently broadcast (padded)
across the first camera's frame axis and assembly returns a stacked shape. -/
theorem C2_counterexample :
    stackShapes [⟨2, 5, 2⟩, ⟨1, 5, 2⟩] = .ok (2, 2, 5, 2)
    ∧ (NpyShape3.mk 2 5 2).frames ≠ (NpyShape3.mk 1 5 2).frames := by
  constructor
  · rfl
  · decide

/-- C2 amended: assembly validates only that camera 0's spatial dimension is 2
(a generic error otherwise, naming no camera); it succeeds exactly when every
camera's shape numpy-broadcasts into camera 0's `(frames, points, dims)` slot,
so an axis of extent 1 is silently broadcast instead of rejected, and any other
frame/point-count disagreement surfaces as a generic broadcast error that
names no camera. -/
theorem C2_amended_assembly_characterization (shapes : List NpyShape3) :
    (∃ out, stackShapes shapes = .ok out) ↔
      ∃ s0 rest, shapes = s0 :: rest ∧ s0.dims = 2
        ∧ ∀ s ∈ shapes, (s.frames = s0.frames ∨ s.frames = 1)
            ∧ (s.points = s0.points ∨ s.points = 1)
            ∧ (s.dims = s0.dims ∨ s.dims = 1) := by
  cases shapes with
  | nil =>
      constructor
      · rintro ⟨out, hout⟩
        simp [stackShapes] at hout
      · rintro ⟨s0, rest, heq, _⟩
        simp at heq
  | cons s0 rest =>
      simp only [stackShapes]
      split
      next hdims =>
        split
        next hall =>
          constructor
          · intro _
            refine ⟨s0, rest, rfl, by simpa using hdims, fun s hs => ?_⟩
            have hcond := List.all_eq_true.mp hall s hs
            simp only [Bool.and_eq_true, broadcastDim_eq_true] at hcond
            tauto
          · intro _
            exact ⟨_, rfl⟩
        next hall =>
          constructor
          · rintro ⟨out, hout⟩
            simp at hout
          · rintro ⟨s0', rest', heq, hd', hall'⟩
            obtain ⟨rfl, rfl⟩ : s0' = s0 ∧ rest' = rest := by
              injection heq with h1 h2
              exact ⟨h1.symm, h2.symm⟩
            refine absurd ?_ hall
            rw [List.all_eq_true]
            intro s hs
            have hcond := hall' s hs
            simp only [Bool.and_eq_true, broadcastDim_eq_true]
            tauto
      next hdims =>
        constructor
        · rintro ⟨out, hout⟩
          simp at hout
        · rintro ⟨s0', rest', heq, hd', _⟩
          obtain ⟨rfl, _⟩ : s0' = s0 ∧ rest' = rest := by
            injection heq with h1 h2
            exact ⟨h1.symm, h2.symm⟩
          exact absurd (by simpa using hd') hdims

theorem hstack4_map {α : Type} (l : List α) (g1 g2 g3 g4 : α → List Cell) :
    hstack4 (l.map g1) (l.map g2) (l.map g3) (l.map g4)
      = l.map (fun r => g1 r ++ g2 r ++ g3 r ++ g4 r) := by
  induction l with
  | nil => rfl
  | cons a t ih => simp [hstack4, ih]

theorem all_data2d_eq (pc : PointCounts) (results : List MediapipeResults) (w h : ℚ) :
    all_data2d_nFrames_nTrackedPts_XY
        (list_of_mediapipe_results_to_npy_arrays pc results w h)
      = results.map (cameraRowBlock pc w h) := by
  simp only [all_data2d_nFrames_nTrackedPts_XY, list_of_mediapipe_results_to_npy_arrays]
  exact hstack4_map results _ _ _ _

theorem cameraRowBlock_length (pc : PointCounts) (w h : ℚ) (r : MediapipeResults) :
    (cameraRowBlock pc w h r).length
      = pc.nBody + pc.nRightHand + pc.nLeftHand + pc.nFace := by
  simp [cameraRowBlock, partRowForFrame_length]
  omega

theorem broadcastAssign_exact (F P : ℕ) (a : List (List Cell))
    (hne : a ≠ []) (ha : a.length = F)
    (hrows : ∀ row ∈ a, row.length = P) :
    broadcastAssign F P a = .ok a := by
  have hsh : shapeOf a = (F, P) := by
    cases a with
    | nil => exact absurd rfl hne
    | cons r t =>
        simp only [shapeOf, List.headD_cons]
        rw [ha, hrows r (List.mem_cons_self r t)]
  simp only [broadcastAssign, hsh]
  rw [if_pos (by simp [broadcastDim])]
  have hstep1 : (if F == 1 then List.replicate F (a.headD []) else a) = a := by
    by_cases hF1 : F = 1
    · subst hF1
      obtain ⟨r, hr⟩ := List.length_eq_one.mp ha
      subst hr
      rfl
    · rw [if_neg (by simpa using hF1)]
  rw [hstep1]
  have hstep2 : a.map (fun row =>
      if P == 1 then List.replicate P (row.headD (none, none)) else row) = a := by
    refine map_eq_self_of a _ (fun row hrow => ?_)
    by_cases hP1 : P = 1
    · subst hP1
      obtain ⟨c, hc⟩ := List.length_eq_one.mp (hrows row hrow)
      subst hc
      rfl
    · rw [if_neg (by simpa using hP1)]
  rw [hstep2]

theorem stackCamerasData_exact (all : List (List (List Cell))) (F P : ℕ)
    (hne : all ≠ []) (hF : 0 < F)
    (hlen : ∀ a ∈ all, a.length = F)
    (hrows : ∀ a ∈ all, ∀ row ∈ a, row.length = P) :
    stackCamerasData all = .ok all := by
  cases all with
  | nil => exact absurd rfl hne
  | cons a0 rest =>
      have ha0len : a0.length = F := hlen a0 (List.mem_cons_self _ _)
      have ha0ne : a0 ≠ [] := by
        intro h
        rw [h] at ha0len
        simp at ha0len
        omega
      have hsh : shapeOf a0 = (F, P) := by
        cases a0 with
        | nil => exact absurd rfl ha0ne
        | cons r t =>
            simp only [shapeOf, List.headD_cons]
            rw [ha0len, hrows _ (List.mem_cons_self _ _) r (List.mem_cons_self r t)]
      simp only [stackCamerasData, hsh]
      have hok := exceptMapM_ok id (broadcastAssign F P) (a0 :: rest)
        (fun a ha => broadcastAssign_exact F P a
          (by intro h; have := hlen a ha; rw [h] at this; simp at this; omega)
          (hlen a ha) (hrows a ha))
      rw [hok, List.map_id]

/-- C7: a session whose videos all decode the same number `F` of frames (and
whose rendering side effects do not raise) produces the stacked array: one
block per camera in video order, each block with `F` frame rows, each row the
fixed-order concatenation body ++ right hand ++ left hand ++ face of XY cells,
so the point axis has `nBody + nRightHand + nLeftHand + nFace` columns. -/
theorem C7_stacked_array_shape_and_order {Image : Type}
    (detect : Image → MediapipeResults) (renderOk : VideoInput Image → Bool)
    (pc : PointCounts) (save : Bool) (videos : List (VideoInput Image)) (F : ℕ)
    (hne : videos ≠ [])
    (hrender : ∀ v ∈ videos, (save && !(renderOk v)) = false)
    (hframes : ∀ v ∈ videos, ∃ img rest, v.reads = some img :: rest
        ∧ (img :: takeWhileSome rest).length = F) :
    ∃ stacked, process_session_folder detect renderOk pc save videos = .ok stacked
      ∧ stacked = videos.map (fun v =>
          ((decodedImages v.reads).map detect).map (cameraRowBlock pc v.width v.height))
      ∧ stacked.length = videos.length
      ∧ ∀ cam ∈ stacked, cam.length = F
          ∧ ∀ row ∈ cam, row.length
              = pc.nBody + pc.nRightHand + pc.nLeftHand + pc.nFace := by
  have hF0 : 0 < F := by
    obtain ⟨v0, hv0⟩ := List.exists_mem_of_ne_nil videos hne
    obtain ⟨img, rest, _, hlen⟩ := hframes v0 hv0
    simp only [List.length_cons] at hlen
    omega
  have hdec : ∀ v ∈ videos, (decodedImages v.reads).length = F := by
    intro v hv
    obtain ⟨img, rest, hr, hlen⟩ := hframes v hv
    rw [hr]
    exact hlen
  have hpv : ∀ v ∈ videos, processVideo detect renderOk pc save v
      = .ok (list_of_mediapipe_results_to_npy_arrays pc
          ((decodedImages v.reads).map detect) v.width v.height) := by
    intro v hv
    obtain ⟨img, rest, hr, _⟩ := hframes v hv
    have hread : readVideoFrames v.reads
        = (.ok (decodedImages v.reads) : Except PipelineError (List Image)) := by
      rw [hr]
      rfl
    simp only [processVideo, hread, hrender v hv]
    rfl
  have hmapM := exceptMapM_ok _ _ videos hpv
  have hcamlen : ∀ v ∈ videos,
      (((decodedImages v.reads).map detect).map (cameraRowBlock pc v.width v.height)).length
        = F := by
    intro v hv
    simp [hdec v hv]
  have hcamrows : ∀ v ∈ videos,
      ∀ row ∈ ((decodedImages v.reads).map detect).map (cameraRowBlock pc v.width v.height),
        row.length = pc.nBody + pc.nRightHand + pc.nLeftHand + pc.nFace := by
    intro v hv row hrow
    obtain ⟨r, _, hr⟩ := List.mem_map.mp hrow
    rw [← hr]
    exact cameraRowBlock_length pc v.width v.height r
  have hcams : (videos.map (fun v => list_of_mediapipe_results_to_npy_arrays pc
        ((decodedImages v.reads).map detect) v.width v.height)).map
          all_data2d_nFrames_nTrackedPts_XY
      = videos.map (fun v =>
          ((decodedImages v.reads).map detect).map (cameraRowBlock pc v.width v.height)) := by
    rw [List.map_map]
    simp only [Function.comp_def, all_data2d_eq]
  have hstack : stackCamerasData (videos.map (fun v =>
        ((decodedImages v.reads).map detect).map (cameraRowBlock pc v.width v.height)))
      = .ok (videos.map (fun v =>
        ((decodedImages v.reads).map detect).map (cameraRowBlock pc v.width v.height))) := by
    refine stackCamerasData_exact _ F
      (pc.nBody + pc.nRightHand + pc.nLeftHand + pc.nFace) ?_ hF0 ?_ ?_
    · simpa using hne
    · intro a ha
      obtain ⟨v, hv, hva⟩ := List.mem_map.mp ha
      rw [← hva]
      exact hcamlen v hv
    · intro a ha
      obtain ⟨v, hv, hva⟩ := List.mem_map.mp ha
      rw [← hva]
      exact hcamrows v hv
  refine ⟨videos.map (fun v =>
      ((decodedImages v.reads).map detect).map (cameraRowBlock pc v.width v.height)),
    ?_, rfl, by simp, ?_⟩
  · simp only [process_session_folder, hmapM]
    show stackCamerasData _ = _
    rw [hcams, hstack]
  · intro cam hcam
    obtain ⟨v, hv, hvc⟩ := List.mem_map.mp hcam
    exact ⟨by rw [← hvc]; exact hcamlen v hv, by rw [← hvc]; exact hcamrows v hv⟩

/-- Witness for C7: a one-camera, one-frame session stacks into a single block
whose single frame row is the four-part concatenation. -/
theorem C7_witness :
    ∃ stacked, @process_session_folder Unit (fun _ => sampleResults)
        (fun _ => true) samplePC true [⟨10, 100, "cam0", [some ()]⟩] = .ok stacked
      ∧ stacked = [⟨10, 100, "cam0", [some ()]⟩].map
          (fun v : VideoInput Unit =>
            ((decodedImages v.reads).map (fun _ => sampleResults)).map
              (cameraRowBlock samplePC v.width v.height))
      ∧ stacked.length = ([⟨10, 100, "cam0", [some ()]⟩] : List (VideoInput Unit)).length
      ∧ ∀ cam ∈ stacked, cam.length = 1
          ∧ ∀ row ∈ cam, row.length
              = samplePC.nBody + samplePC.nRightHand + samplePC.nLeftHand
                + samplePC.nFace :=
  @C7_stacked_array_shape_and_order Unit (fun _ => sampleResults)
    (fun _ => true) samplePC true [⟨10, 100, "cam0", [some ()]⟩] 1
    (by simp)
    (fun v hv => rfl)
    (fun v hv => by rw [List.mem_singleton.mp hv]; exact ⟨(), [], rfl, rfl⟩)

end PyMotionCapture
